import Mathlib

/-!
Formal model of the Drowsy_Detection repository.

The core under verification consists of:
* `drowsy_detection.py` — `DrowsyDetector` with `__init__`, `get_ear`
  (eye-aspect-ratio of six landmark points) and `process` (per-frame score);
* `streamlit_app.py` — `StreamlitDrowsyDetector.is_drowsy` (the drowsiness
  decision) and the per-frame statistics update in `main`.

Modelling choices:
* Normalized landmark coordinates (Python floats in `[0,1]`) are modelled as
  rationals; a scaled coordinate `int(lm.x * frame_w)` is an integer obtained
  by truncation toward zero (`pyTrunc`), exactly as Python's `int()`.
* `np.linalg.norm` of an integer difference vector is the Euclidean length,
  a real number (`Real.sqrt` of the integer squared distance).
* The division `(P2_P6 + P3_P5) / (2.0 * P1_P4)` is float division with no
  guard; when the denominator is zero the Python result is not a finite
  number (`inf`, or `nan` when the numerator is also zero).  A fallible
  float computation is modelled as `Option ℝ`: `none` means the result of
  the frame is not a finite real number.
* `landmarks` (the mediapipe landmark array, always 478 entries) is modelled
  as a total function `ℕ → Landmark`.
* `results.multi_face_landmarks` is either falsy (no face) or a non-empty
  list of faces; it is modelled as `List (ℕ → Landmark)` with `[]` for the
  no-detection case.
-/

/-- One mediapipe landmark: normalized x/y coordinates (Python floats,
modelled as rationals). -/
structure Landmark where
  x : ℚ
  y : ℚ
deriving DecidableEq

/-- Python's `int()` applied to a rational: truncation toward zero. -/
def pyTrunc (q : ℚ) : ℤ :=
  if 0 ≤ q then ⌊q⌋ else -⌊-q⌋

/-- Pixel coordinates `(int(lm.x * frame_w), int(lm.y * frame_h))` of one
landmark, as built in `DrowsyDetector.get_ear`. -/
def pxPt (lm : Landmark) (frame_w frame_h : ℕ) : ℤ × ℤ :=
  (pyTrunc (lm.x * frame_w), pyTrunc (lm.y * frame_h))

/-- The `coords` list built in `DrowsyDetector.get_ear`: the landmarks at the
configured indices, scaled to (truncated) pixel space. -/
def coordsOf (landmarks : ℕ → Landmark) (refer_idxs : List ℕ)
    (frame_w frame_h : ℕ) : List (ℤ × ℤ) :=
  refer_idxs.map fun idx => pxPt (landmarks idx) frame_w frame_h

/-- Squared Euclidean distance between two pixel points (an exact integer). -/
def sqDist (p q : ℤ × ℤ) : ℤ :=
  (p.1 - q.1) ^ 2 + (p.2 - q.2) ^ 2

/-- Euclidean distance between two pixel points
(`np.linalg.norm` of the difference vector), as a real number. -/
noncomputable def dist2D (p q : ℤ × ℤ) : ℝ :=
  Real.sqrt ((sqDist p q : ℤ) : ℝ)

/-- The arithmetic of `DrowsyDetector.get_ear` after the `coords` list is
built: `ear = (P2_P6 + P3_P5) / (2.0 * P1_P4)`.  The source divides with no
guard; a zero denominator (`P1_P4 = 0`, equivalently zero squared distance)
makes the float result non-finite (`inf`/`nan`), modelled as `none`. -/
noncomputable def earOfCoords (coords : List (ℤ × ℤ)) : Option ℝ :=
  let c := fun i => coords.getD i (0, 0)
  if sqDist (c 0) (c 3) = 0 then none
  else some ((dist2D (c 1) (c 5) + dist2D (c 2) (c 4)) / (2 * dist2D (c 0) (c 3)))

/-- Model of `DrowsyDetector.get_ear(landmarks, refer_idxs, frame_w, frame_h)`. -/
noncomputable def get_ear (landmarks : ℕ → Landmark) (refer_idxs : List ℕ)
    (frame_w frame_h : ℕ) : Option ℝ :=
  earOfCoords (coordsOf landmarks refer_idxs frame_w frame_h)

/-- The state of a `DrowsyDetector` instance.  `__init__` stores the two
configuration numbers, the fixed eye index lists, and `drowsy_start = None`
(a field no other method of the class ever reads or writes). -/
structure DrowsyDetector where
  ear_thresh : ℚ
  wait_time : ℚ
  eye_idxs_left : List ℕ
  eye_idxs_right : List ℕ
  drowsy_start : Option ℚ
deriving DecidableEq

/-- Constructor `DrowsyDetector.__init__(ear_thresh, wait_time)`: plain
assignments, no validation of any kind. -/
def DrowsyDetector.init (ear_thresh wait_time : ℚ) : DrowsyDetector :=
  { ear_thresh := ear_thresh
    wait_time := wait_time
    eye_idxs_left := [362, 385, 387, 263, 373, 380]
    eye_idxs_right := [33, 160, 158, 133, 153, 144]
    drowsy_start := none }

/-- Model of `DrowsyDetector.process(frame)`, after the external face-mesh
call: start from `ear = 1.0`; if at least one face was detected, take the
landmarks of the FIRST face, compute both per-eye ratios, and average them. -/
noncomputable def DrowsyDetector.process (d : DrowsyDetector)
    (multi_face_landmarks : List (ℕ → Landmark)) (frame_w frame_h : ℕ) :
    Option ℝ :=
  match multi_face_landmarks with
  | [] => some 1
  | f :: _ =>
    match get_ear f d.eye_idxs_left frame_w frame_h,
          get_ear f d.eye_idxs_right frame_w frame_h with
    | some left_ear, some right_ear => some ((left_ear + right_ear) / 2)
    | _, _ => none

/-- Model of `StreamlitDrowsyDetector.is_drowsy(ear)`:
`return ear < self.detector.ear_thresh if self.detector else False`. -/
def is_drowsy (detector : Option DrowsyDetector) (ear : ℝ) : Prop :=
  match detector with
  | some d => ear < (d.ear_thresh : ℝ)
  | none => False

/-- The per-session statistics dictionary of `StreamlitDrowsyDetector`
(the fields the detection loop mutates). -/
structure SessionStats where
  total_detections : ℕ
  last_drowsy_time : Option ℚ
deriving DecidableEq

open scoped Classical

/-- One pass of the detection branch of `main` (streamlit_app.py lines
291–297): every frame whose `is_drowsy` flag is set increments
`total_detections` and stamps `last_drowsy_time`; otherwise the stats are
untouched. -/
noncomputable def updateStats (detector : Option DrowsyDetector)
    (stats : SessionStats) (ear : ℝ) (now : ℚ) : SessionStats :=
  if is_drowsy detector ear then
    { total_detections := stats.total_detections + 1
      last_drowsy_time := some now }
  else stats

/-- Spec formula (§4.1): per-eye ratio `(d1 + d2) / (2 × d0)` with
`d1 = distance(P2,P6)`, `d2 = distance(P3,P5)`, `d0 = distance(P1,P4)`,
over six pixel points.  Written from the spec's words, to be compared with
`get_ear`. -/
noncomputable def spec_eye_score (P1 P2 P3 P4 P5 P6 : ℤ × ℤ) : ℝ :=
  (dist2D P2 P6 + dist2D P3 P5) / (2 * dist2D P1 P4)

/-- Spec formula (§4.1): frame score = arithmetic mean of the two per-eye
scores.  Written from the spec's words. -/
noncomputable def spec_frame_score (left_score right_score : ℝ) : ℝ :=
  (left_score + right_score) / 2

/-- Linear interpolation of rationals, used to state the lid-closing
hypothesis of the monotonicity claim. -/
def lerpQ (t a b : ℚ) : ℚ := a + t * (b - a)

/-- Linear interpolation of landmarks (componentwise). -/
def lerpL (t : ℚ) (p q : Landmark) : Landmark :=
  ⟨lerpQ t p.x q.x, lerpQ t p.y q.y⟩

/-- A concrete synthetic eye (indices 0–5 as P1..P6): corners at `(0,0)` and
`(0.5,0)`, lids `0.4` apart vertically. -/
def openEye : ℕ → Landmark := fun i =>
  if i = 0 then ⟨0, 0⟩
  else if i = 1 then ⟨1 / 10, 4 / 10⟩
  else if i = 2 then ⟨3 / 10, 4 / 10⟩
  else if i = 3 then ⟨5 / 10, 0⟩
  else if i = 4 then ⟨3 / 10, 0⟩
  else ⟨1 / 10, 0⟩

/-- The same synthetic eye with each lid pair interpolated halfway toward
each other (lids half closed). -/
def halfClosedEye : ℕ → Landmark := fun i =>
  if i = 0 then ⟨0, 0⟩
  else if i = 1 then ⟨1 / 10, 2 / 10⟩
  else if i = 2 then ⟨3 / 10, 2 / 10⟩
  else if i = 3 then ⟨5 / 10, 0⟩
  else if i = 4 then ⟨3 / 10, 2 / 10⟩
  else ⟨1 / 10, 2 / 10⟩

/-! ### Helper lemmas -/

lemma is_drowsy_some (d : DrowsyDetector) (ear : ℝ) :
    is_drowsy (some d) ear ↔ ear < (d.ear_thresh : ℝ) := Iff.rfl

lemma low_score_drowsy (wt : ℚ) :
    is_drowsy (some (DrowsyDetector.init (18 / 100) wt)) (1 / 10) := by
  show (1 / 10 : ℝ) < ((18 / 100 : ℚ) : ℝ)
  push_cast
  norm_num

lemma recovered_score_not_drowsy (wt : ℚ) :
    ¬ is_drowsy (some (DrowsyDetector.init (18 / 100) wt)) (2 / 10) := by
  show ¬ (2 / 10 : ℝ) < ((18 / 100 : ℚ) : ℝ)
  push_cast
  norm_num

lemma updateStats_pos {d : Option DrowsyDetector} {ear : ℝ}
    (s : SessionStats) (now : ℚ) (h : is_drowsy d ear) :
    updateStats d s ear now = ⟨s.total_detections + 1, some now⟩ := by
  unfold updateStats
  rw [if_pos h]

lemma updateStats_neg {d : Option DrowsyDetector} {ear : ℝ}
    (s : SessionStats) (now : ℚ) (h : ¬ is_drowsy d ear) :
    updateStats d s ear now = s := by
  unfold updateStats
  rw [if_neg h]

/-! ### Claims -/

/-- C1: the spec claims a drowsiness onset event fires exactly once, at the
first update where the elapsed time since the first sub-threshold frame is
at least `waitTime`, and never before.  The code's decision
`StreamlitDrowsyDetector.is_drowsy` is the bare comparison
`ear < ear_thresh`: it takes no timestamp, reads no timer (the
`drowsy_start` field set by `__init__` is never used), and with
`earThreshold = 0.18` it already reports drowsy at the very first
sub-threshold frame (score `0.10` at `0.0 s`, elapsed `0 < waitTime`),
whatever `waitTime` was configured. -/
theorem drowsy_reported_without_wait :
    ∀ wt : ℚ,
      is_drowsy (some (DrowsyDetector.init (18 / 100) wt)) (1 / 10) ∧
      (DrowsyDetector.init (18 / 100) wt).drowsy_start = none :=
  fun wt => ⟨low_score_drowsy wt, rfl⟩

/-- C3: the spec claims that once Drowsy, further sub-threshold updates add
no new onset events.  In the code, the `main` loop increments
`total_detections` (and restamps `last_drowsy_time`) on EVERY frame whose
score is below threshold: two consecutive sub-threshold frames add two,
not one. -/
theorem detections_increment_every_subthreshold_frame :
    ∀ (s : SessionStats) (t1 t2 : ℚ),
      (updateStats (some (DrowsyDetector.init (18 / 100) 1))
        (updateStats (some (DrowsyDetector.init (18 / 100) 1)) s (1 / 10) t1)
        (1 / 10) t2).total_detections = s.total_detections + 2 := by
  intro s t1 t2
  rw [updateStats_pos s t1 (low_score_drowsy 1),
    updateStats_pos _ t2 (low_score_drowsy 1)]

/-- C4 counterexample: the claim says construction with `earThreshold`
outside `(0,1)` or non-positive `waitTime` raises an error and leaves the
instance unusable.  `DrowsyDetector.__init__` performs no validation:
called with `ear_thresh = 2` and `wait_time = -1` it returns a fully
usable instance — `process` and `is_drowsy` operate on it normally. -/
theorem init_accepts_invalid_config :
    (DrowsyDetector.init 2 (-1)).ear_thresh = 2 ∧
    (DrowsyDetector.init 2 (-1)).wait_time = -1 ∧
    (DrowsyDetector.init 2 (-1)).process [] 640 480 = some 1 ∧
    is_drowsy (some (DrowsyDetector.init 2 (-1))) (1 / 2) := by
  refine ⟨rfl, rfl, rfl, ?_⟩
  show (1 / 2 : ℝ) < ((2 : ℚ) : ℝ)
  push_cast
  norm_num

/-- C4 amended: construction performs no validation at all — every
`(earThreshold, waitTime)` pair is accepted and stored verbatim, the
resulting instance is immediately usable, and per-frame operation is the
plain comparison `ear < earThreshold` (so no range error is ever raised at
construction or during operation). -/
theorem init_never_validates :
    ∀ et wt : ℚ,
      (DrowsyDetector.init et wt).ear_thresh = et ∧
      (DrowsyDetector.init et wt).wait_time = wt ∧
      (∀ w h : ℕ, (DrowsyDetector.init et wt).process [] w h = some 1) ∧
      (∀ ear : ℝ, is_drowsy (some (DrowsyDetector.init et wt)) ear ↔ ear < (et : ℝ)) :=
  fun _ _ => ⟨rfl, rfl, fun _ _ => rfl, fun _ => Iff.rfl⟩

/-- C5: the spec claims that in the scenario `earThreshold = 0.18`,
`waitTime = 1.0 s`, scores `0.10 @ 0.0 s`, `0.20 @ 0.5 s`, `0.10 @ 0.6 s`,
no onset fires by `0.6 s` and a fresh timer starts at `0.6 s`.  Running the
code's per-frame update on exactly this trace, the detection counter is
already `2` after the `0.6 s` frame: the code reported drowsiness at
`0.0 s` and again at `0.6 s`, because the decision has no timer at all. -/
theorem drowsy_rerun_scenario_code_eval :
    updateStats (some (DrowsyDetector.init (18 / 100) 1))
      (updateStats (some (DrowsyDetector.init (18 / 100) 1))
        (updateStats (some (DrowsyDetector.init (18 / 100) 1)) ⟨0, none⟩ (1 / 10) 0)
        (2 / 10) (1 / 2))
      (1 / 10) (6 / 10) = ⟨2, some (6 / 10)⟩ := by
  rw [updateStats_pos _ 0 (low_score_drowsy 1),
    updateStats_neg _ (1 / 2) (recovered_score_not_drowsy 1),
    updateStats_pos _ (6 / 10) (low_score_drowsy 1)]

/-- C6: a frame with no detected face yields the sentinel score `1.0`
(`DrowsyDetector.process` with an empty detection list), and feeding that
sentinel into `is_drowsy` with any threshold in `(0,1)` reports not
drowsy. -/
theorem no_face_sentinel_keeps_alert :
    (∀ (et wt : ℚ) (w h : ℕ), (DrowsyDetector.init et wt).process [] w h = some 1) ∧
    (∀ et wt : ℚ, 0 < et → et < 1 →
      ¬ is_drowsy (some (DrowsyDetector.init et wt)) 1) := by
  constructor
  · intro et wt w h
    rfl
  · intro et wt _h0 h1
    show ¬ (1 : ℝ) < ((et : ℚ) : ℝ)
    rw [not_lt]
    exact_mod_cast le_of_lt h1

/-- C6 witness: the sentinel and the Alert decision at the concrete
configuration `earThreshold = 0.18`, `waitTime = 1.0`. -/
theorem no_face_sentinel_keeps_alert_witness :
    (0 : ℚ) < 18 / 100 ∧ (18 / 100 : ℚ) < 1 ∧
    (DrowsyDetector.init (18 / 100) 1).process [] 640 480 = some 1 ∧
    ¬ is_drowsy (some (DrowsyDetector.init (18 / 100) 1)) 1 :=
  ⟨by norm_num, by norm_num,
    no_face_sentinel_keeps_alert.1 (18 / 100) 1 640 480,
    no_face_sentinel_keeps_alert.2 (18 / 100) 1 (by norm_num) (by norm_num)⟩

/-- C10: `DrowsyDetector.process` computes the frame score exclusively from
the first face of the detection list: any further detected faces have no
effect on the result. -/
theorem process_ignores_extra_faces :
    ∀ (d : DrowsyDetector) (f : ℕ → Landmark)
      (rest rest' : List (ℕ → Landmark)) (w h : ℕ),
      d.process (f :: rest) w h = d.process (f :: rest') w h :=
  fun _ _ _ _ _ _ => rfl

/-- C2 counterexample: the claim says that when the horizontal
corner-to-corner distance of an eye is zero the computation returns the
"fully open" sentinel `1.0`.  With landmarks whose `P1` and `P4` land on the
same pixel, `DrowsyDetector.get_ear` divides by `2.0 * 0.0` with no guard:
the float result is non-finite (`none` in this model), not `1.0`. -/
theorem get_ear_zero_width_not_sentinel :
    get_ear (fun i => if i = 362 ∨ i = 263 then ⟨0, 0⟩ else ⟨1 / 2, 1 / 2⟩)
      [362, 385, 387, 263, 373, 380] 100 100 = none ∧
    get_ear (fun i => if i = 362 ∨ i = 263 then ⟨0, 0⟩ else ⟨1 / 2, 1 / 2⟩)
      [362, 385, 387, 263, 373, 380] 100 100 ≠ some 1 := by
  have h :
      get_ear (fun i => if i = 362 ∨ i = 263 then ⟨0, 0⟩ else ⟨1 / 2, 1 / 2⟩)
        [362, 385, 387, 263, 373, 380] 100 100 = none := by
    norm_num [get_ear, earOfCoords, coordsOf, pxPt, pyTrunc, sqDist]
  refine ⟨h, ?_⟩
  rw [h]
  simp

/-- C2 amended: when the horizontal corner-to-corner squared distance is
zero, `DrowsyDetector.get_ear` performs an unguarded float division by zero
and the per-eye result is not a finite number (`inf`/`nan`, modelled as
`none`) — the sentinel `1.0` is NOT produced. -/
theorem get_ear_zero_width_none :
    ∀ (lm : ℕ → Landmark) (i1 i2 i3 i4 i5 i6 : ℕ) (w h : ℕ),
      sqDist (pxPt (lm i1) w h) (pxPt (lm i4) w h) = 0 →
      get_ear lm [i1, i2, i3, i4, i5, i6] w h = none := by
  intro lm i1 i2 i3 i4 i5 i6 w h h0
  simp only [get_ear, earOfCoords, coordsOf, List.map_cons, List.map_nil,
    List.getD_cons_zero, List.getD_cons_succ]
  rw [if_pos h0]

/-- C2 amended witness: the zero-width landmark set from the counterexample
satisfies the zero-distance hypothesis and yields a non-finite result. -/
theorem get_ear_zero_width_none_witness :
    sqDist
      (pxPt ((fun i : ℕ => if i = 362 ∨ i = 263 then (⟨0, 0⟩ : Landmark)
        else ⟨1 / 2, 1 / 2⟩) 362) 100 100)
      (pxPt ((fun i : ℕ => if i = 362 ∨ i = 263 then (⟨0, 0⟩ : Landmark)
        else ⟨1 / 2, 1 / 2⟩) 263) 100 100) = 0 ∧
    get_ear (fun i : ℕ => if i = 362 ∨ i = 263 then ⟨0, 0⟩ else ⟨1 / 2, 1 / 2⟩)
      [362, 385, 387, 263, 373, 380] 100 100 = none :=
  ⟨by norm_num [pxPt, pyTrunc, sqDist],
    get_ear_zero_width_none _ 362 385 387 263 373 380 100 100
      (by norm_num [pxPt, pyTrunc, sqDist])⟩

/-- C9: the score is a quantized function of the landmarks — each scaled
coordinate is truncated to an integer pixel before any distance is
measured, so two landmark inputs (and frame sizes) whose scaled coordinates
truncate to the same integers at every referenced index produce exactly the
same per-eye ratio. -/
theorem ear_depends_only_on_truncated_pixels :
    ∀ (lm lm' : ℕ → Landmark) (idxs : List ℕ) (w h w' h' : ℕ),
      (∀ i ∈ idxs, pxPt (lm i) w h = pxPt (lm' i) w' h') →
      get_ear lm idxs w h = get_ear lm' idxs w' h' := by
  intro lm lm' idxs w h w' h' hpx
  unfold get_ear
  congr 1
  exact List.map_congr_left hpx

/-- C9 witness: two different landmark functions (coordinates differing by
`1/2000`) whose pixels agree at all six right-eye indices give the same
ratio. -/
theorem ear_depends_only_on_truncated_pixels_witness :
    (∀ i ∈ [33, 160, 158, 133, 153, 144],
      pxPt ((fun j : ℕ => (⟨(j : ℚ) / 1000 + 1 / 2000, (j : ℚ) / 1000⟩ : Landmark)) i) 10 10 =
      pxPt ((fun j : ℕ => (⟨(j : ℚ) / 1000, (j : ℚ) / 1000 + 1 / 2000⟩ : Landmark)) i) 10 10) ∧
    get_ear (fun j : ℕ => ⟨(j : ℚ) / 1000 + 1 / 2000, (j : ℚ) / 1000⟩)
        [33, 160, 158, 133, 153, 144] 10 10 =
      get_ear (fun j : ℕ => ⟨(j : ℚ) / 1000, (j : ℚ) / 1000 + 1 / 2000⟩)
        [33, 160, 158, 133, 153, 144] 10 10 := by
  have hpx : ∀ i ∈ [33, 160, 158, 133, 153, 144],
      pxPt ((fun j : ℕ => (⟨(j : ℚ) / 1000 + 1 / 2000, (j : ℚ) / 1000⟩ : Landmark)) i) 10 10 =
      pxPt ((fun j : ℕ => (⟨(j : ℚ) / 1000, (j : ℚ) / 1000 + 1 / 2000⟩ : Landmark)) i) 10 10 := by
    intro i hi
    fin_cases hi <;> norm_num [pxPt, pyTrunc]
  exact ⟨hpx, ear_depends_only_on_truncated_pixels _ _ _ 10 10 10 10 hpx⟩

lemma sqDist_nonneg (p q : ℤ × ℤ) : 0 ≤ sqDist p q := by
  unfold sqDist
  positivity

lemma dist2D_nonneg (p q : ℤ × ℤ) : 0 ≤ dist2D p q := Real.sqrt_nonneg _

lemma dist2D_pos {p q : ℤ × ℤ} (h : sqDist p q ≠ 0) : 0 < dist2D p q := by
  unfold dist2D
  rw [Real.sqrt_pos]
  exact_mod_cast lt_of_le_of_ne (sqDist_nonneg p q) (Ne.symm h)

lemma dist2D_mono {p q p' q' : ℤ × ℤ} (h : sqDist p' q' ≤ sqDist p q) :
    dist2D p' q' ≤ dist2D p q :=
  Real.sqrt_le_sqrt (by exact_mod_cast h)

lemma get_ear_eq_spec (lm : ℕ → Landmark) (i1 i2 i3 i4 i5 i6 : ℕ) (w h : ℕ)
    (h0 : sqDist (pxPt (lm i1) w h) (pxPt (lm i4) w h) ≠ 0) :
    get_ear lm [i1, i2, i3, i4, i5, i6] w h =
      some (spec_eye_score (pxPt (lm i1) w h) (pxPt (lm i2) w h)
        (pxPt (lm i3) w h) (pxPt (lm i4) w h) (pxPt (lm i5) w h)
        (pxPt (lm i6) w h)) := by
  simp only [get_ear, earOfCoords, coordsOf, List.map_cons, List.map_nil,
    List.getD_cons_zero, List.getD_cons_succ]
  rw [if_neg h0]
  rfl

/-- C7: for a frame with a detected face, `DrowsyDetector.process` returns
exactly the spec's frame score — the arithmetic mean of the two per-eye
ratios `(d1 + d2) / (2 × d0)` computed over the configured landmark indices
scaled (and truncated) to pixel space; and for any eye whose two vertical
distances equal its horizontal distance, the per-eye ratio is exactly `1`. -/
theorem process_matches_spec_formula :
    (∀ (et wt : ℚ) (f : ℕ → Landmark) (rest : List (ℕ → Landmark)) (w h : ℕ),
      sqDist (pxPt (f 362) w h) (pxPt (f 263) w h) ≠ 0 →
      sqDist (pxPt (f 33) w h) (pxPt (f 133) w h) ≠ 0 →
      (DrowsyDetector.init et wt).process (f :: rest) w h =
        some (spec_frame_score
          (spec_eye_score (pxPt (f 362) w h) (pxPt (f 385) w h) (pxPt (f 387) w h)
            (pxPt (f 263) w h) (pxPt (f 373) w h) (pxPt (f 380) w h))
          (spec_eye_score (pxPt (f 33) w h) (pxPt (f 160) w h) (pxPt (f 158) w h)
            (pxPt (f 133) w h) (pxPt (f 153) w h) (pxPt (f 144) w h)))) ∧
    (∀ (lm : ℕ → Landmark) (i1 i2 i3 i4 i5 i6 : ℕ) (w h : ℕ),
      sqDist (pxPt (lm i2) w h) (pxPt (lm i6) w h)
        = sqDist (pxPt (lm i1) w h) (pxPt (lm i4) w h) →
      sqDist (pxPt (lm i3) w h) (pxPt (lm i5) w h)
        = sqDist (pxPt (lm i1) w h) (pxPt (lm i4) w h) →
      sqDist (pxPt (lm i1) w h) (pxPt (lm i4) w h) ≠ 0 →
      get_ear lm [i1, i2, i3, i4, i5, i6] w h = some 1) := by
  constructor
  · intro et wt f rest w h hL hR
    have hl := get_ear_eq_spec f 362 385 387 263 373 380 w h hL
    have hr := get_ear_eq_spec f 33 160 158 133 153 144 w h hR
    simp only [DrowsyDetector.process, DrowsyDetector.init]
    rw [hl, hr]
    rfl
  · intro lm i1 i2 i3 i4 i5 i6 w h h1 h2 h0
    rw [get_ear_eq_spec lm i1 i2 i3 i4 i5 i6 w h h0]
    unfold spec_eye_score dist2D
    rw [h1, h2]
    have hpos : (0 : ℝ) <
        Real.sqrt ((sqDist (pxPt (lm i1) w h) (pxPt (lm i4) w h) : ℤ) : ℝ) := by
      rw [Real.sqrt_pos]
      exact_mod_cast lt_of_le_of_ne (sqDist_nonneg _ _) (Ne.symm h0)
    rw [Option.some_inj]
    field_simp
    ring

/-- C7 witness: the refinement and the ratio-one instance at concrete
landmark sets and frame size 10×10. -/
theorem process_matches_spec_formula_witness :
    sqDist (pxPt ((fun i : ℕ => (⟨(i : ℚ) / 1000, (i : ℚ) / 1000⟩ : Landmark)) 362) 10 10)
      (pxPt ((fun i : ℕ => (⟨(i : ℚ) / 1000, (i : ℚ) / 1000⟩ : Landmark)) 263) 10 10) ≠ 0 ∧
    sqDist (pxPt ((fun i : ℕ => (⟨(i : ℚ) / 1000, (i : ℚ) / 1000⟩ : Landmark)) 33) 10 10)
      (pxPt ((fun i : ℕ => (⟨(i : ℚ) / 1000, (i : ℚ) / 1000⟩ : Landmark)) 133) 10 10) ≠ 0 ∧
    (DrowsyDetector.init (18 / 100) 1).process
        [fun i : ℕ => ⟨(i : ℚ) / 1000, (i : ℚ) / 1000⟩] 10 10 =
      some (spec_frame_score
        (spec_eye_score
          (pxPt (⟨362 / 1000, 362 / 1000⟩ : Landmark) 10 10)
          (pxPt (⟨385 / 1000, 385 / 1000⟩ : Landmark) 10 10)
          (pxPt (⟨387 / 1000, 387 / 1000⟩ : Landmark) 10 10)
          (pxPt (⟨263 / 1000, 263 / 1000⟩ : Landmark) 10 10)
          (pxPt (⟨373 / 1000, 373 / 1000⟩ : Landmark) 10 10)
          (pxPt (⟨380 / 1000, 380 / 1000⟩ : Landmark) 10 10))
        (spec_eye_score
          (pxPt (⟨33 / 1000, 33 / 1000⟩ : Landmark) 10 10)
          (pxPt (⟨160 / 1000, 160 / 1000⟩ : Landmark) 10 10)
          (pxPt (⟨158 / 1000, 158 / 1000⟩ : Landmark) 10 10)
          (pxPt (⟨133 / 1000, 133 / 1000⟩ : Landmark) 10 10)
          (pxPt (⟨153 / 1000, 153 / 1000⟩ : Landmark) 10 10)
          (pxPt (⟨144 / 1000, 144 / 1000⟩ : Landmark) 10 10))) ∧
    get_ear (fun i : ℕ =>
        if i = 0 then (⟨0, 0⟩ : Landmark)
        else if i = 1 then ⟨1 / 10, 5 / 10⟩
        else if i = 2 then ⟨3 / 10, 5 / 10⟩
        else if i = 3 then ⟨5 / 10, 0⟩
        else if i = 4 then ⟨3 / 10, 0⟩
        else ⟨1 / 10, 0⟩)
      [0, 1, 2, 3, 4, 5] 10 10 = some 1 := by
  have hL : sqDist
      (pxPt ((fun i : ℕ => (⟨(i : ℚ) / 1000, (i : ℚ) / 1000⟩ : Landmark)) 362) 10 10)
      (pxPt ((fun i : ℕ => (⟨(i : ℚ) / 1000, (i : ℚ) / 1000⟩ : Landmark)) 263) 10 10) ≠ 0 := by
    norm_num [pxPt, pyTrunc, sqDist]
  have hR : sqDist
      (pxPt ((fun i : ℕ => (⟨(i : ℚ) / 1000, (i : ℚ) / 1000⟩ : Landmark)) 33) 10 10)
      (pxPt ((fun i : ℕ => (⟨(i : ℚ) / 1000, (i : ℚ) / 1000⟩ : Landmark)) 133) 10 10) ≠ 0 := by
    norm_num [pxPt, pyTrunc, sqDist]
  refine ⟨hL, hR, process_matches_spec_formula.1 (18 / 100) 1 _ [] 10 10 hL hR, ?_⟩
  apply process_matches_spec_formula.2 _ 0 1 2 3 4 5 10 10 <;>
    norm_num [pxPt, pyTrunc, sqDist]

lemma pyTrunc_mono {a b : ℚ} (h : a ≤ b) : pyTrunc a ≤ pyTrunc b := by
  unfold pyTrunc
  split_ifs with ha hb hb
  · exact Int.floor_le_floor h
  · linarith
  · have h1 : (0 : ℤ) ≤ ⌊-a⌋ := Int.floor_nonneg.mpr (by linarith)
    have h2 : (0 : ℤ) ≤ ⌊b⌋ := Int.floor_nonneg.mpr hb
    omega
  · have h3 : ⌊-b⌋ ≤ ⌊-a⌋ := Int.floor_le_floor (by linarith)
    omega

lemma pyTrunc_between (a b x : ℚ) (h1 : min a b ≤ x) (h2 : x ≤ max a b) :
    min (pyTrunc a) (pyTrunc b) ≤ pyTrunc x ∧
      pyTrunc x ≤ max (pyTrunc a) (pyTrunc b) := by
  have hl := pyTrunc_mono h1
  have hr := pyTrunc_mono h2
  constructor
  · refine le_trans ?_ hl
    rcases le_total a b with hab | hab
    · rw [min_eq_left hab]
      exact min_le_left _ _
    · rw [min_eq_right hab]
      exact min_le_right _ _
  · refine le_trans hr ?_
    rcases le_total a b with hab | hab
    · rw [max_eq_right hab]
      exact le_max_right _ _
    · rw [max_eq_left hab]
      exact le_max_left _ _

lemma lerpQ_between (t a b : ℚ) (h0 : 0 ≤ t) (h1 : t ≤ 1) :
    min a b ≤ lerpQ t a b ∧ lerpQ t a b ≤ max a b := by
  unfold lerpQ
  rcases le_total a b with hab | hab
  · rw [min_eq_left hab, max_eq_right hab]
    constructor <;> nlinarith
  · rw [min_eq_right hab, max_eq_left hab]
    constructor <;> nlinarith

lemma lerpQ_mul (t a b c : ℚ) : lerpQ t a b * c = lerpQ t (a * c) (b * c) := by
  unfold lerpQ
  ring

lemma sq_sub_le_of_between {x y x' y' : ℤ}
    (hx1 : min x y ≤ x') (hx2 : x' ≤ max x y)
    (hy1 : min x y ≤ y') (hy2 : y' ≤ max x y) :
    (x' - y') ^ 2 ≤ (x - y) ^ 2 := by
  have h1 : x' - y' ≤ max x y - min x y := by omega
  have h2 : -(max x y - min x y) ≤ x' - y' := by omega
  have h3 : (x' - y') ^ 2 ≤ (max x y - min x y) ^ 2 := sq_le_sq' h2 h1
  have h4 : (max x y - min x y) ^ 2 = (x - y) ^ 2 := by
    rcases le_total x y with h | h
    · rw [max_eq_right h, min_eq_left h]
      ring
    · rw [max_eq_left h, min_eq_right h]
  rw [h4] at h3
  exact h3

lemma sqDist_le_of_between {p q p' q' : ℤ × ℤ}
    (hx1 : min p.1 q.1 ≤ p'.1) (hx2 : p'.1 ≤ max p.1 q.1)
    (hx3 : min p.1 q.1 ≤ q'.1) (hx4 : q'.1 ≤ max p.1 q.1)
    (hy1 : min p.2 q.2 ≤ p'.2) (hy2 : p'.2 ≤ max p.2 q.2)
    (hy3 : min p.2 q.2 ≤ q'.2) (hy4 : q'.2 ≤ max p.2 q.2) :
    sqDist p' q' ≤ sqDist p q := by
  have h1 := sq_sub_le_of_between hx1 hx2 hx3 hx4
  have h2 := sq_sub_le_of_between hy1 hy2 hy3 hy4
  unfold sqDist
  linarith

lemma pxPt_lerp_between (t : ℚ) (a b : Landmark) (w h : ℕ)
    (h0 : 0 ≤ t) (h1 : t ≤ 1) :
    (min (pxPt a w h).1 (pxPt b w h).1 ≤ (pxPt (lerpL t a b) w h).1 ∧
      (pxPt (lerpL t a b) w h).1 ≤ max (pxPt a w h).1 (pxPt b w h).1) ∧
    (min (pxPt a w h).2 (pxPt b w h).2 ≤ (pxPt (lerpL t a b) w h).2 ∧
      (pxPt (lerpL t a b) w h).2 ≤ max (pxPt a w h).2 (pxPt b w h).2) := by
  have hx := lerpQ_between t (a.x * w) (b.x * w) h0 h1
  have hy := lerpQ_between t (a.y * h) (b.y * h) h0 h1
  constructor
  · have hcoord : (pxPt (lerpL t a b) w h).1 = pyTrunc (lerpQ t (a.x * w) (b.x * w)) := by
      show pyTrunc ((lerpL t a b).x * w) = _
      rw [show (lerpL t a b).x = lerpQ t a.x b.x from rfl, lerpQ_mul]
    rw [hcoord]
    exact pyTrunc_between (a.x * w) (b.x * w) _ hx.1 hx.2
  · have hcoord : (pxPt (lerpL t a b) w h).2 = pyTrunc (lerpQ t (a.y * h) (b.y * h)) := by
      show pyTrunc ((lerpL t a b).y * h) = _
      rw [show (lerpL t a b).y = lerpQ t a.y b.y from rfl, lerpQ_mul]
    rw [hcoord]
    exact pyTrunc_between (a.y * h) (b.y * h) _ hy.1 hy.2

lemma lid_sqDist_le (t : ℚ) (a b : Landmark) (w h : ℕ)
    (h0 : 0 ≤ t) (h1 : t ≤ 1) :
    sqDist (pxPt (lerpL t a b) w h) (pxPt (lerpL t b a) w h) ≤
      sqDist (pxPt a w h) (pxPt b w h) := by
  obtain ⟨⟨hx1, hx2⟩, hy1, hy2⟩ := pxPt_lerp_between t a b w h h0 h1
  obtain ⟨⟨hx3, hx4⟩, hy3, hy4⟩ := pxPt_lerp_between t b a w h h0 h1
  exact sqDist_le_of_between hx1 hx2 (by omega) (by omega) hy1 hy2
    (by omega) (by omega)

/-- C8: monotonicity under lid closure.  If the second landmark set agrees
with the first at the corner points and its four lid points are obtained by
linearly interpolating each lid pair toward each other by a factor
`t ∈ [0,1]`, then the computed per-eye ratio does not increase, and the
closed-lid ratio is never negative. -/
theorem ear_monotone_under_lid_closure :
    ∀ (lm lm' : ℕ → Landmark) (i1 i2 i3 i4 i5 i6 : ℕ) (w h : ℕ) (t : ℚ),
      0 ≤ t → t ≤ 1 →
      lm' i1 = lm i1 → lm' i4 = lm i4 →
      lm' i2 = lerpL t (lm i2) (lm i6) → lm' i6 = lerpL t (lm i6) (lm i2) →
      lm' i3 = lerpL t (lm i3) (lm i5) → lm' i5 = lerpL t (lm i5) (lm i3) →
      sqDist (pxPt (lm i1) w h) (pxPt (lm i4) w h) ≠ 0 →
      ∃ r r' : ℝ,
        get_ear lm [i1, i2, i3, i4, i5, i6] w h = some r ∧
        get_ear lm' [i1, i2, i3, i4, i5, i6] w h = some r' ∧
        r' ≤ r ∧ 0 ≤ r' := by
  intro lm lm' i1 i2 i3 i4 i5 i6 w h t ht0 ht1 e1 e4 e2 e6 e3 e5 hd0
  have hd0' : sqDist (pxPt (lm' i1) w h) (pxPt (lm' i4) w h) ≠ 0 := by
    rw [e1, e4]
    exact hd0
  refine ⟨_, _, get_ear_eq_spec lm i1 i2 i3 i4 i5 i6 w h hd0,
    get_ear_eq_spec lm' i1 i2 i3 i4 i5 i6 w h hd0', ?_, ?_⟩
  · unfold spec_eye_score
    rw [e1, e4, e2, e6, e3, e5]
    have k1 : dist2D (pxPt (lerpL t (lm i2) (lm i6)) w h)
          (pxPt (lerpL t (lm i6) (lm i2)) w h) ≤
        dist2D (pxPt (lm i2) w h) (pxPt (lm i6) w h) :=
      dist2D_mono (lid_sqDist_le t (lm i2) (lm i6) w h ht0 ht1)
    have k2 : dist2D (pxPt (lerpL t (lm i3) (lm i5)) w h)
          (pxPt (lerpL t (lm i5) (lm i3)) w h) ≤
        dist2D (pxPt (lm i3) w h) (pxPt (lm i5) w h) :=
      dist2D_mono (lid_sqDist_le t (lm i3) (lm i5) w h ht0 ht1)
    have hden : 0 < dist2D (pxPt (lm i1) w h) (pxPt (lm i4) w h) :=
      dist2D_pos hd0
    have h2den : (0 : ℝ) < 2 * dist2D (pxPt (lm i1) w h) (pxPt (lm i4) w h) := by
      linarith
    exact div_le_div_of_nonneg_right (add_le_add k1 k2) h2den.le
  · unfold spec_eye_score
    apply div_nonneg
    · exact add_nonneg (dist2D_nonneg _ _) (dist2D_nonneg _ _)
    · have := dist2D_nonneg (pxPt (lm' i1) w h) (pxPt (lm' i4) w h)
      linarith

/-- C8 witness: closing the lids of the concrete synthetic eye `openEye`
halfway (`t = 1/2`) gives `halfClosedEye`; the ratio does not increase and
stays non-negative. -/
theorem ear_monotone_under_lid_closure_witness :
    (0 : ℚ) ≤ 1 / 2 ∧ (1 / 2 : ℚ) ≤ 1 ∧
    halfClosedEye 0 = openEye 0 ∧ halfClosedEye 3 = openEye 3 ∧
    halfClosedEye 1 = lerpL (1 / 2) (openEye 1) (openEye 5) ∧
    halfClosedEye 5 = lerpL (1 / 2) (openEye 5) (openEye 1) ∧
    halfClosedEye 2 = lerpL (1 / 2) (openEye 2) (openEye 4) ∧
    halfClosedEye 4 = lerpL (1 / 2) (openEye 4) (openEye 2) ∧
    sqDist (pxPt (openEye 0) 10 10) (pxPt (openEye 3) 10 10) ≠ 0 ∧
    ∃ r r' : ℝ,
      get_ear openEye [0, 1, 2, 3, 4, 5] 10 10 = some r ∧
      get_ear halfClosedEye [0, 1, 2, 3, 4, 5] 10 10 = some r' ∧
      r' ≤ r ∧ 0 ≤ r' := by
  refine ⟨by norm_num, by norm_num, ?_, ?_, ?_, ?_, ?_, ?_, ?_, ?_⟩
  · norm_num [openEye, halfClosedEye]
  · norm_num [openEye, halfClosedEye]
  · norm_num [openEye, halfClosedEye, lerpL, lerpQ]
  · norm_num [openEye, halfClosedEye, lerpL, lerpQ]
  · norm_num [openEye, halfClosedEye, lerpL, lerpQ]
  · norm_num [openEye, halfClosedEye, lerpL, lerpQ]
  · norm_num [openEye, pxPt, pyTrunc, sqDist]
  · exact ear_monotone_under_lid_closure openEye halfClosedEye 0 1 2 3 4 5 10 10
      (1 / 2) (by norm_num) (by norm_num)
      (by norm_num [openEye, halfClosedEye])
      (by norm_num [openEye, halfClosedEye])
      (by norm_num [openEye, halfClosedEye, lerpL, lerpQ])
      (by norm_num [openEye, halfClosedEye, lerpL, lerpQ])
      (by norm_num [openEye, halfClosedEye, lerpL, lerpQ])
      (by norm_num [openEye, halfClosedEye, lerpL, lerpQ])
      (by norm_num [openEye, pxPt, pyTrunc, sqDist])
